import Mathlib

/-!
Verification of the I2C protocol core of the arduBridge repository
(`GSOF_ArduBridge/ArduI2C.py`, class `ArduBridgeI2C`).

Shallow embedding. The transport (`self.comm`, a `BridgeSerial` object not
part of the verified core) is modelled abstractly:

* `comm.receive(k)` in the Python code returns a pair
  `(status, byteList)` — the code inspects `reply[0]` (a status that is `0`,
  and in one place also `-1`, on failure) and `reply[1]` (the received
  bytes).  We model the transport by an *oracle* `Oracle : Nat → Reply`
  giving the reply to the i-th `receive` call of one method invocation.
* Every externally visible transport action (`send`, `receive`,
  `time.sleep`, `sendReset`) is recorded in an event trace, so that claims
  about *which* bytes are sent, and *how many* receives happen, are
  statements about the trace.

Python exceptions that the methods can raise (the unbound name `reg` in
`writeRaw`'s log line, `reply[1][0]` on an empty list, a failed dictionary
lookup `self.ERROR[res]`) are modelled with `Except PyExc`.

Bytes are `Nat`; the Python lists hold plain ints, no masking is performed
by this code, so no `% 256` is applied except where the source applies
`&0xff` (in `setFreq`).  The `delay` parameter is a Python float compared
against `0.0`; we model it as `ℚ` (the code only compares it with `0` and
passes it to `time.sleep`).
-/

set_option maxRecDepth 8000

namespace ArduBridgeI2C

/-- A transport reply: `(status, bytes)` as returned by `comm.receive`. -/
abbrev Reply := Int × List Nat

/-- Reply oracle: the reply handed back by the i-th `receive` call made
during one method invocation. -/
abbrev Oracle := Nat → Reply

/-- Observable transport events of one method invocation. -/
inductive Event where
  | send (bytes : List Nat)
  | recv (count : Nat)
  | sleep (d : ℚ)
  | reset
deriving DecidableEq, Repr

/-- The byte sequences handed to `comm.send` within a trace, in order. -/
def sends (tr : List Event) : List (List Nat) :=
  tr.filterMap fun e =>
    match e with
    | Event.send b => some b
    | _ => none

/-- The requested byte counts of the `comm.receive` calls of a trace. -/
def recvs (tr : List Event) : List Nat :=
  tr.filterMap fun e =>
    match e with
    | Event.recv k => some k
    | _ => none

/-- Python exceptions that can escape the modelled methods.  `nameError`
stands for the `NameError` raised by evaluating the unbound name `reg` in
`writeRaw`'s log line (the only unbound-name reference in this code). -/
inductive PyExc where
  | nameError
  | indexError
  | keyError (k : Nat)
deriving DecidableEq, Repr

/-- A Python return value of the read methods: either a byte list or the
integer sentinel `-1`. -/
inductive PyVal where
  | vlist (l : List Nat)
  | vint (i : Int)
deriving DecidableEq, Repr

/-! Protocol constants, from `ArduBridgeI2C.__init__`.  The values are the
ASCII codes the source takes with `ord(...)`. -/

/-- ASCII `ord('2')` — I2C packet id. -/
def I2C_PACKET_ID : Nat := 50
/-- ASCII `ord('A')` — address command. -/
def CMD_I2C_ADDRESS : Nat := 65
/-- ASCII `ord('L')` — length command. -/
def CMD_I2C_LENGTH : Nat := 76
/-- ASCII `ord('F')` — frequency command. -/
def CMD_I2C_FREQ : Nat := 70
/-- ASCII `ord('w')` — write-restart command. -/
def CMD_I2C_WRITE_RESTART : Nat := 119
/-- ASCII `ord('W')` — write command. -/
def CMD_I2C_WRITE : Nat := 87
/-- ASCII `ord('r')` — read-restart command. -/
def CMD_I2C_READ_RESTART : Nat := 114
/-- ASCII `ord('R')` — read command. -/
def CMD_I2C_READ : Nat := 82

/-- ASCII `ord('L')` — firmware length-error code. -/
def ERROR_LENGTH : Nat := 76

/-- The keys of the `self.ERROR` dictionary: `ord` of `'N'`, `'U'`, `'L'`,
`'R'`, `'W'`, `'S'`. -/
def ERROR_keys : List Nat := [78, 85, 76, 82, 87, 83]

/-- The packet list `vDat` built by `writeRaw` (source lines 110-116). -/
def writePacket (dev : Nat) (vByte : List Nat) : List Nat :=
  [I2C_PACKET_ID, CMD_I2C_ADDRESS, dev, CMD_I2C_LENGTH,
   vByte.length, CMD_I2C_WRITE] ++ vByte

/-- The packet list `vDat` built by `writeRegister` (source lines 148-154). -/
def writeRegPacket (dev reg : Nat) (vByte : List Nat) : List Nat :=
  [I2C_PACKET_ID, CMD_I2C_ADDRESS, dev, CMD_I2C_LENGTH,
   vByte.length + 1, CMD_I2C_WRITE, reg] ++ vByte

/-- The header list `vHdr` built by `readRaw` (source lines 128-133). -/
def readRawPacket (dev N : Nat) : List Nat :=
  [I2C_PACKET_ID, CMD_I2C_ADDRESS, dev, CMD_I2C_LENGTH,
   N, CMD_I2C_READ]

/-- The write-restart header `vHdr` built by `readRegister`
(source lines 166-172). -/
def writeRestartPacket (dev reg : Nat) : List Nat :=
  [I2C_PACKET_ID, CMD_I2C_ADDRESS, dev, CMD_I2C_LENGTH,
   1, CMD_I2C_WRITE_RESTART, reg]

/-- The read-request list `vRd` built by `readRegister`
(source lines 174-177). -/
def readReqPacket (N : Nat) : List Nat :=
  [I2C_PACKET_ID, CMD_I2C_LENGTH, N, CMD_I2C_READ]

/-- Method `setFreq(freq)` (source lines 99-106):
`freq = int(freq/10000)&0xff`, then sends `[ID,'F',freq]` and issues
`sendReset()`.  For a non-negative `freq`, `int(freq/10000)` is division
truncated toward zero, i.e. `Nat` division. -/
def setFreq (freq : Nat) : List Event :=
  let f := (freq / 10000) % 256
  [Event.send [I2C_PACKET_ID, CMD_I2C_FREQ, f], Event.reset]

/-- Method `writeRaw(dev, vByte)` (source lines 109-125).  Sends `vDat`, receives
one status byte.  When `self.v` is true and `reply[0] != 0`, the code
executes `res = reply[1][0]` (an `IndexError` if the byte list is empty)
and then a `CON_prn.printf` whose argument tuple `(dev, reg, ...)`
references the name `reg`, which is bound nowhere in `writeRaw` — Python
raises `NameError` while evaluating that tuple, before the `self.ERROR`
lookup. -/
def writeRaw (v : Bool) (dev : Nat) (vByte : List Nat) (o : Oracle) :
    Except PyExc Reply × List Event :=
  let reply := o 0
  let res : Except PyExc Reply :=
    if v then
      if reply.1 ≠ 0 then
        match reply.2 with
        | [] => Except.error PyExc.indexError
        | _ :: _ => Except.error PyExc.nameError
      else Except.ok reply
    else Except.ok reply
  (res, [Event.send (writePacket dev vByte), Event.recv 1])

/-- Method `writeRegister(dev, reg, vByte)` (source lines 147-163).  Same shape as
`writeRaw` with the register prefixed; its log line references only bound
names, but `self.ERROR[res]` raises `KeyError` when the status byte is not
one of the six error-code keys. -/
def writeRegister (v : Bool) (dev reg : Nat) (vByte : List Nat) (o : Oracle) :
    Except PyExc Reply × List Event :=
  let reply := o 0
  let res : Except PyExc Reply :=
    if v then
      if reply.1 ≠ 0 then
        match reply.2 with
        | [] => Except.error PyExc.indexError
        | r :: _ =>
          if r ∈ ERROR_keys then Except.ok reply
          else Except.error (PyExc.keyError r)
      else Except.ok reply
    else Except.ok reply
  (res, [Event.send (writeRegPacket dev reg vByte), Event.recv 1])

/-- Method `readRaw(dev, N)` (source lines 127-145).  Sends the header, receives
one count byte; if that receive reports a byte (`reply[0] != 0`), takes
`n = reply[1][0]` and performs `receive(n)`; on that second receive
reporting success, returns the received list, otherwise falls through to
`return -1`. -/
def readRaw (dev N : Nat) (o : Oracle) :
    Except PyExc PyVal × List Event :=
  let r1 := o 0
  let tr1 := [Event.send (readRawPacket dev N), Event.recv 1]
  if r1.1 ≠ 0 then
    match r1.2 with
    | [] => (Except.error PyExc.indexError, tr1)
    | n :: _ =>
      let r2 := o 1
      let tr2 := tr1 ++ [Event.recv n]
      if r2.1 ≠ 0 then
        (Except.ok (PyVal.vlist r2.2), tr2)
      else
        (Except.ok (PyVal.vint (-1)), tr2)
  else
    (Except.ok (PyVal.vint (-1)), tr1)

/-- The common tail of `readRegister` (source lines 198-209): when
`err == False`, receive the count byte, then `receive(n)`, and return the
received list on success; every other path falls through to `return -1`.
The oracle indices `1` and `2` are used because exactly one `receive` has
already happened in both branches that reach this code. -/
def readFinish (err : Bool) (o : Oracle) (tr : List Event) :
    Except PyExc PyVal × List Event :=
  if err = false then
    let r2 := o 1
    let tr2 := tr ++ [Event.recv 1]
    if r2.1 ≠ 0 then
      match r2.2 with
      | [] => (Except.error PyExc.indexError, tr2)
      | n :: _ =>
        let r3 := o 2
        let tr3 := tr2 ++ [Event.recv n]
        if r3.1 ≠ 0 then
          (Except.ok (PyVal.vlist r3.2), tr3)
        else
          (Except.ok (PyVal.vint (-1)), tr3)
    else
      (Except.ok (PyVal.vint (-1)), tr2)
  else
    (Except.ok (PyVal.vint (-1)), tr)

/-- Method `readRegister(dev, reg, N, delay)` (source lines 165-209).

* `delay <= 0.0`: one combined send `vHdr + vRd`, one `receive(1)` whose
  *status* (`reply[0]`, not the received byte value) is checked against
  `0` and `-1`; `err` is false exactly when the status is neither.
* `delay > 0.0`: send `vHdr` alone, `receive(1)`, and if the status is
  neither `0` nor `-1`, `time.sleep(delay)` and send `vRd`.

Then the common tail `readFinish`. -/
def readRegister (dev reg N : Nat) (delay : ℚ) (o : Oracle) :
    Except PyExc PyVal × List Event :=
  let vHdr := writeRestartPacket dev reg
  let vRd := readReqPacket N
  if delay ≤ 0 then
    let r1 := o 0
    let err := ¬(r1.1 ≠ 0 ∧ r1.1 ≠ -1)
    readFinish (decide err) o [Event.send (vHdr ++ vRd), Event.recv 1]
  else
    let r1 := o 0
    let tr1 := [Event.send vHdr, Event.recv 1]
    if r1.1 ≠ 0 ∧ r1.1 ≠ -1 then
      let tr2 := tr1 ++ (if 0 < delay then [Event.sleep delay] else [])
                     ++ [Event.send vRd]
      readFinish false o tr2
    else
      readFinish true o tr1

/-! Concrete transport oracles used in scenario theorems. -/

/-- A transport that acknowledges the register write with byte `0x01`,
reports a count of `3`, and delivers `[0x11, 0x22, 0x33]`. -/
def ackOk3 : Oracle := fun i =>
  if i = 0 then (1, [1]) else if i = 1 then (1, [3]) else (3, [17, 34, 51])

/-- Same transport, but the register-write acknowledgment byte is
`0x4C` (`'L'`, the firmware length-error code). -/
def ackErr3 : Oracle := fun i =>
  if i = 0 then (1, [76]) else if i = 1 then (1, [3]) else (3, [17, 34, 51])

/-- A transport whose count byte is `0`; the follow-up zero-byte receive
succeeds with an empty list. -/
def countZero : Oracle := fun i => if i = 0 then (1, [0]) else (1, [])

/-- A transport on which every receive succeeds with the single status
byte `0x4E` (`'N'`, no error). -/
def ackByte : Oracle := fun _ => (1, [78])

/-- A transport on which every receive fails (status `0`, no bytes). -/
def noBytes : Oracle := fun _ => (0, [])

/-- A 256-byte payload, longer than the one-byte length field can hold. -/
def bigPayload : List Nat := List.replicate 256 0

end ArduBridgeI2C

namespace ArduBridgeI2C

/-! Helper lemmas describing the branches of `readRegister`/`readFinish`. -/

theorem readFinish_true (o : Oracle) (tr : List Event) :
    readFinish true o tr = (Except.ok (PyVal.vint (-1)), tr) := rfl

theorem readFinish_false_noCount (o : Oracle) (tr : List Event)
    (h : (o 1).1 = 0) :
    readFinish false o tr =
      (Except.ok (PyVal.vint (-1)), tr ++ [Event.recv 1]) := by
  simp [readFinish, h]

theorem readFinish_false_count (o : Oracle) (tr : List Event)
    (k : Nat) (rest : List Nat)
    (h1 : (o 1).1 ≠ 0) (hb : (o 1).2 = k :: rest) :
    readFinish false o tr =
      (if (o 2).1 ≠ 0 then Except.ok (PyVal.vlist (o 2).2)
       else Except.ok (PyVal.vint (-1)),
       tr ++ [Event.recv 1, Event.recv k]) := by
  rcases Decidable.em ((o 2).1 = 0) with h2 | h2 <;>
    simp [readFinish, h1, hb, h2]

theorem readRegister_zero_delay (dev reg N : Nat) (delay : ℚ) (o : Oracle)
    (hd : delay ≤ 0) :
    readRegister dev reg N delay o =
      readFinish (decide ¬((o 0).1 ≠ 0 ∧ (o 0).1 ≠ -1)) o
        [Event.send (writeRestartPacket dev reg ++ readReqPacket N),
         Event.recv 1] := by
  simp [readRegister, hd]

theorem readRegister_pos_delay_ack (dev reg N : Nat) (delay : ℚ) (o : Oracle)
    (hd : 0 < delay) (h : (o 0).1 ≠ 0 ∧ (o 0).1 ≠ -1) :
    readRegister dev reg N delay o =
      readFinish false o
        [Event.send (writeRestartPacket dev reg), Event.recv 1,
         Event.sleep delay, Event.send (readReqPacket N)] := by
  have hd2 : ¬ delay ≤ 0 := not_le.mpr hd
  simp [readRegister, hd2, h, hd]

theorem readRegister_pos_delay_noAck (dev reg N : Nat) (delay : ℚ) (o : Oracle)
    (hd : 0 < delay) (h : ¬((o 0).1 ≠ 0 ∧ (o 0).1 ≠ -1)) :
    readRegister dev reg N delay o =
      readFinish true o
        [Event.send (writeRestartPacket dev reg), Event.recv 1] := by
  have hd2 : ¬ delay ≤ 0 := not_le.mpr hd
  simp only [readRegister, if_neg hd2, if_neg h]

theorem sends_append (a b : List Event) : sends (a ++ b) = sends a ++ sends b := by
  simp [sends]

theorem recvs_append (a b : List Event) : recvs (a ++ b) = recvs a ++ recvs b := by
  simp [recvs]

theorem readFinish_sends (err : Bool) (o : Oracle) (tr : List Event) :
    sends (readFinish err o tr).2 = sends tr := by
  rcases err
  · rcases Decidable.em ((o 1).1 = 0) with h1 | h1
    · rw [readFinish_false_noCount o tr h1]
      simp [sends_append, sends]
    · rcases hb : (o 1).2 with _ | ⟨k, rest⟩
      · simp [readFinish, h1, hb, sends_append, sends]
      · rw [readFinish_false_count o tr k rest h1 hb]
        split <;> simp [sends_append, sends]
  · rfl

theorem readFinish_val (err : Bool) (o : Oracle) (tr tr2 : List Event) :
    (readFinish err o tr).1 = (readFinish err o tr2).1 := by
  rcases err
  · rcases Decidable.em ((o 1).1 = 0) with h1 | h1
    · rw [readFinish_false_noCount o tr h1, readFinish_false_noCount o tr2 h1]
    · rcases hb : (o 1).2 with _ | ⟨k, rest⟩
      · simp [readFinish, h1, hb]
      · rw [readFinish_false_count o tr k rest h1 hb,
          readFinish_false_count o tr2 k rest h1 hb]
  · rfl

theorem readRegister_val_ack (dev reg N : Nat) (delay : ℚ) (o : Oracle)
    (h : (o 0).1 ≠ 0 ∧ (o 0).1 ≠ -1) :
    (readRegister dev reg N delay o).1 = (readFinish false o []).1 := by
  rcases le_or_lt delay 0 with hd | hd
  · rw [readRegister_zero_delay dev reg N delay o hd]
    have herr : (decide ¬((o 0).1 ≠ 0 ∧ (o 0).1 ≠ -1)) = false := by
      simp only [decide_not, Bool.not_eq_false']
      exact decide_eq_true h
    rw [herr]
    exact readFinish_val false o _ []
  · rw [readRegister_pos_delay_ack dev reg N delay o hd h]
    exact readFinish_val false o _ []

theorem readRegister_val_noAck (dev reg N : Nat) (delay : ℚ) (o : Oracle)
    (h : ¬((o 0).1 ≠ 0 ∧ (o 0).1 ≠ -1)) :
    (readRegister dev reg N delay o).1 = Except.ok (PyVal.vint (-1)) := by
  rcases le_or_lt delay 0 with hd | hd
  · rw [readRegister_zero_delay dev reg N delay o hd]
    have herr : (decide ¬((o 0).1 ≠ 0 ∧ (o 0).1 ≠ -1)) = true :=
      decide_eq_true h
    rw [herr, readFinish_true]
  · rw [readRegister_pos_delay_noAck dev reg N delay o hd h, readFinish_true]

/-- C1: `writeRegister(dev, reg, vByte)` performs exactly one transport
send, whose bytes are `['2','A',dev,'L',len(vByte)+1,'W',reg]` followed by
the payload; in particular `writeRegister(dev=0x14, reg=0x10, vByte=[0,1,2])`
sends `['2','A',0x14,'L',4,'W',0x10,0,1,2]`. -/
theorem C1_writeRegister_wire (v : Bool) (dev reg : Nat) (vByte : List Nat)
    (o : Oracle) :
    sends (writeRegister v dev reg vByte o).2 =
      [[50, 65, dev, 76, vByte.length + 1, 87, reg] ++ vByte] ∧
    sends (writeRegister v 0x14 0x10 [0, 1, 2] o).2 =
      [[50, 65, 0x14, 76, 4, 87, 0x10, 0x00, 0x01, 0x02]] := by
  refine ⟨?_, ?_⟩ <;>
    simp [writeRegister, sends, writeRegPacket, I2C_PACKET_ID,
      CMD_I2C_ADDRESS, CMD_I2C_LENGTH, CMD_I2C_WRITE]

/-- C2: `readRegister(dev, reg, n, delay=0)` issues exactly one transport
send, the concatenation `['2','A',dev,'L',1,'w',reg,'2','L',n,'R']` of the
write-restart and read-request packets; and when the transport yields an
ack byte, then a count byte `k`, then `k` payload bytes, the call returns
those payload bytes. -/
theorem C2_readRegister_zero_delay (dev reg n : Nat) (o : Oracle)
    (s0 : Int) (a : Nat) (bs0 : List Nat)
    (s1 : Int) (k : Nat) (bs1 : List Nat)
    (s2 : Int) (p : List Nat)
    (h0 : o 0 = (s0, a :: bs0)) (h0a : s0 ≠ 0) (h0b : s0 ≠ -1)
    (h1 : o 1 = (s1, k :: bs1)) (h1a : s1 ≠ 0)
    (h2 : o 2 = (s2, p)) (h2a : s2 ≠ 0) (_hp : p.length = k) :
    sends (readRegister dev reg n 0 o).2 =
      [[50, 65, dev, 76, 1, 119, reg, 50, 76, n, 82]] ∧
    (readRegister dev reg n 0 o).1 = Except.ok (PyVal.vlist p) := by
  have hz := readRegister_zero_delay dev reg n 0 o le_rfl
  have herr : (decide ¬((o 0).1 ≠ 0 ∧ (o 0).1 ≠ -1)) = false := by
    simp [h0, h0a, h0b]
  rw [herr] at hz
  have h1a2 : (o 1).1 ≠ 0 := by rw [h1]; exact h1a
  have h1b2 : (o 1).2 = k :: bs1 := by rw [h1]
  have hfin := readFinish_false_count o
    [Event.send (writeRestartPacket dev reg ++ readReqPacket n), Event.recv 1]
    k bs1 h1a2 h1b2
  have h2a2 : (o 2).1 ≠ 0 := by rw [h2]; exact h2a
  rw [if_pos h2a2] at hfin
  rw [hz, hfin]
  constructor
  · simp [sends, writeRestartPacket, readReqPacket, I2C_PACKET_ID,
      CMD_I2C_ADDRESS, CMD_I2C_LENGTH, CMD_I2C_WRITE_RESTART, CMD_I2C_READ]
  · rw [h2]

/-- C2 witness: the spec scenario `dev=0x14, reg=0x10, n=3, delay=0` with
replies `[0x01]`, `[0x03]`, `[0x11,0x22,0x33]` returns `[0x11,0x22,0x33]`
after the single combined send. -/
theorem C2_readRegister_zero_delay_witness :
    sends (readRegister 0x14 0x10 3 0 ackOk3).2 =
      [[50, 65, 0x14, 76, 1, 119, 0x10, 50, 76, 3, 82]] ∧
    (readRegister 0x14 0x10 3 0 ackOk3).1 =
      Except.ok (PyVal.vlist [0x11, 0x22, 0x33]) :=
  C2_readRegister_zero_delay 0x14 0x10 3 ackOk3 1 1 [] 1 3 [] 3 [17, 34, 51]
    (by decide) (by decide) (by decide) (by decide) (by decide)
    (by decide) (by decide) (by decide)

/-- C3 counterexample: `readRegister(dev=0x14, reg=0x10, n=3, delay=0)`
where the write-restart acknowledgment byte is the firmware error code
`0x4C` (`'L'`, length error).  The claim says the call returns a
device-error result with no further transport receive; in fact the code
never inspects the acknowledgment byte's value (only `reply[0]`, the
transport status), performs two further receives (`[1, 1, 3]` in total),
and returns the payload list. -/
theorem C3_counterexample :
    (readRegister 0x14 0x10 3 0 ackErr3).1 =
      Except.ok (PyVal.vlist [17, 34, 51]) ∧
    recvs (readRegister 0x14 0x10 3 0 ackErr3).2 = [1, 1, 3] := by
  constructor
  · rfl
  · rfl

/-- C3 amended: `readRegister` never examines the value of the
acknowledgment byte; it aborts — returning the sentinel `-1` after exactly
one transport receive and no further receives — exactly when the
acknowledgment *receive itself* fails (transport status `0` or `-1`).  A
received firmware error code is treated like any other ack byte and the
read phase proceeds (see the counterexample). -/
theorem C3_amended_ack_status (dev reg n : Nat) (delay : ℚ) (o : Oracle)
    (h : (o 0).1 = 0 ∨ (o 0).1 = -1) :
    (readRegister dev reg n delay o).1 = Except.ok (PyVal.vint (-1)) ∧
    recvs (readRegister dev reg n delay o).2 = [1] := by
  have hcond : ¬((o 0).1 ≠ 0 ∧ (o 0).1 ≠ -1) := by
    rcases h with h | h <;> simp [h]
  rcases le_or_lt delay 0 with hd | hd
  · have hz := readRegister_zero_delay dev reg n delay o hd
    have herr : (decide ¬((o 0).1 ≠ 0 ∧ (o 0).1 ≠ -1)) = true :=
      decide_eq_true hcond
    rw [herr] at hz
    rw [hz, readFinish_true]
    exact ⟨rfl, rfl⟩
  · have hz := readRegister_pos_delay_noAck dev reg n delay o hd hcond
    rw [hz, readFinish_true]
    exact ⟨rfl, rfl⟩

/-- C3 amended witness: with no acknowledgment byte at all (transport
status `0`), the call returns `-1` after a single receive. -/
theorem C3_amended_ack_status_witness :
    (readRegister 0x14 0x10 3 0 noBytes).1 = Except.ok (PyVal.vint (-1)) ∧
    recvs (readRegister 0x14 0x10 3 0 noBytes).2 = [1] :=
  C3_amended_ack_status 0x14 0x10 3 0 noBytes (Or.inl rfl)

/-- C4: `setFreq(hz)` sends the 3-byte packet `['2','F', (hz/10000) % 256]`
(the quotient truncated, then masked to 8 bits), immediately followed by a
bus-reset, and performs no receive; `setFreq(500000)` sends frequency
byte `50`. -/
theorem C4_setFreq (freq : Nat) :
    setFreq freq =
      [Event.send [50, 70, freq / 10000 % 256], Event.reset] ∧
    recvs (setFreq freq) = [] ∧
    setFreq 500000 = [Event.send [50, 70, 50], Event.reset] := by
  refine ⟨rfl, ?_, rfl⟩
  simp [setFreq, recvs]

/-- C5 counterexample: with a 256-byte payload, `writeRaw` and
`writeRegister` do *not* fail with a protocol error: both return the
transport reply normally, and the value placed in the one-byte
`PayloadLength` position of the emitted packet is the full length
(`256`, resp. `257`), with no length check anywhere. -/
theorem C5_counterexample :
    255 < bigPayload.length ∧
    (writeRaw false 0x14 bigPayload ackByte).1 = Except.ok (1, [78]) ∧
    sends (writeRaw false 0x14 bigPayload ackByte).2 =
      [[50, 65, 0x14, 76, 256, 87] ++ bigPayload] ∧
    (writeRegister false 0x14 0x10 bigPayload ackByte).1 =
      Except.ok (1, [78]) ∧
    sends (writeRegister false 0x14 0x10 bigPayload ackByte).2 =
      [[50, 65, 0x14, 76, 257, 87, 0x10] ++ bigPayload] := by
  have hlen : bigPayload.length = 256 := by simp [bigPayload]
  refine ⟨by simp [hlen], rfl, ?_, rfl, ?_⟩ <;>
    simp [writeRaw, writeRegister, sends, writePacket, writeRegPacket,
      hlen, I2C_PACKET_ID, CMD_I2C_ADDRESS, CMD_I2C_LENGTH,
      CMD_I2C_WRITE]

/-- C5 amended: `writeRaw` and `writeRegister` perform no payload-length
check at all.  For every payload longer than 255 bytes the packet is
emitted with the full (un-truncated, multi-byte) length value
`len(vByte)` resp. `len(vByte)+1` in the `PayloadLength` position, and
the call completes normally instead of failing. -/
theorem C5_amended_no_length_check (dev reg : Nat) (vByte : List Nat)
    (o : Oracle) (h : 255 < vByte.length) :
    255 < vByte.length ∧
    (writeRaw false dev vByte o).1 = Except.ok (o 0) ∧
    sends (writeRaw false dev vByte o).2 =
      [[50, 65, dev, 76, vByte.length, 87] ++ vByte] ∧
    (writeRegister false dev reg vByte o).1 = Except.ok (o 0) ∧
    sends (writeRegister false dev reg vByte o).2 =
      [[50, 65, dev, 76, vByte.length + 1, 87, reg] ++ vByte] := by
  refine ⟨h, rfl, ?_, rfl, ?_⟩ <;>
    simp [writeRaw, writeRegister, sends, writePacket, writeRegPacket,
      I2C_PACKET_ID, CMD_I2C_ADDRESS, CMD_I2C_LENGTH, CMD_I2C_WRITE]

/-- C5 amended witness: instantiated at the 256-byte payload. -/
theorem C5_amended_no_length_check_witness :
    255 < bigPayload.length ∧
    (writeRaw false 0x14 bigPayload ackByte).1 =
      Except.ok (ackByte 0) ∧
    sends (writeRaw false 0x14 bigPayload ackByte).2 =
      [[50, 65, 0x14, 76, bigPayload.length, 87] ++ bigPayload] ∧
    (writeRegister false 0x14 0x10 bigPayload ackByte).1 =
      Except.ok (ackByte 0) ∧
    sends (writeRegister false 0x14 0x10 bigPayload ackByte).2 =
      [[50, 65, 0x14, 76, bigPayload.length + 1, 87, 0x10] ++ bigPayload] :=
  C5_amended_no_length_check 0x14 0x10 bigPayload ackByte (by simp [bigPayload])

/-- C6 counterexample: `readRaw(dev=0x14, n=3)` with a count byte of `0`.
The claim says the operation returns an error without any further
transport receive; in fact the code unconditionally performs
`receive(0)` (the trace holds two receive calls, `[1, 0]`), and — when
that zero-byte receive reports success, as here — returns the empty byte
list rather than an error. -/
theorem C6_counterexample :
    recvs (readRaw 0x14 3 countZero).2 = [1, 0] ∧
    (readRaw 0x14 3 countZero).1 = Except.ok (PyVal.vlist []) := by
  exact ⟨rfl, rfl⟩

/-- C6 amended: when the count receive itself fails (status `0`),
`readRaw` returns `-1` with no payload receive; but when a count byte `k`
arrives — *any* `k`, including `0` and firmware error codes — `readRaw`
always performs a further `receive(k)` and returns that receive's byte
list if it reports success, else `-1`. -/
theorem C6_amended_readRaw (dev N : Nat) (o : Oracle) :
    ((o 0).1 = 0 →
      recvs (readRaw dev N o).2 = [1] ∧
      (readRaw dev N o).1 = Except.ok (PyVal.vint (-1))) ∧
    (∀ k rest, (o 0).1 ≠ 0 → (o 0).2 = k :: rest →
      recvs (readRaw dev N o).2 = [1, k] ∧
      (readRaw dev N o).1 =
        (if (o 1).1 ≠ 0 then Except.ok (PyVal.vlist (o 1).2)
         else Except.ok (PyVal.vint (-1)))) := by
  constructor
  · intro h0
    simp [readRaw, h0, recvs, readRawPacket]
  · intro k rest h0 hb
    rcases Decidable.em ((o 1).1 = 0) with h1 | h1 <;>
      simp [readRaw, h0, hb, h1, recvs, readRawPacket]

/-- C6 amended witness: at the count-zero transport, the second receive
request is for `0` bytes and the result is the empty list. -/
theorem C6_amended_readRaw_witness :
    recvs (readRaw 0x14 3 countZero).2 = [1, 0] ∧
    (readRaw 0x14 3 countZero).1 =
      (if (countZero 1).1 ≠ 0 then Except.ok (PyVal.vlist (countZero 1).2)
       else Except.ok (PyVal.vint (-1))) :=
  (C6_amended_readRaw 0x14 3 countZero).2 0 [] (by decide) (by decide)

/-- C7 counterexample: `readRegister(dev=0x14, reg=0x10, n=3, delay=1)`
where the register-selection acknowledgment byte is the firmware error
code `0x4C` (`'L'`).  The claim says an `Err` status issues zero sends for
the read phase; in fact the code checks only the transport status, so the
read-request packet is still sent (two sends in the trace). -/
theorem C7_counterexample :
    sends (readRegister 0x14 0x10 3 1 ackErr3).2 =
      [[50, 65, 0x14, 76, 1, 119, 0x10], [50, 76, 3, 82]] := by
  rfl

/-- C7 amended: with `delay > 0`, when the acknowledgment *receive*
reports a byte (transport status neither `0` nor `-1`) — regardless of
the byte's value, error code or not — the call issues exactly two sends,
the write-restart packet and the read-request packet, with
`sleep(delay)` between them; the read-phase send is skipped exactly when
the acknowledgment receive itself fails. -/
theorem C7_amended_delay_path (dev reg n : Nat) (delay : ℚ) (o : Oracle)
    (hd : 0 < delay) :
    ((o 0).1 ≠ 0 ∧ (o 0).1 ≠ -1 →
      (readRegister dev reg n delay o).2.take 4 =
        [Event.send (writeRestartPacket dev reg), Event.recv 1,
         Event.sleep delay, Event.send (readReqPacket n)] ∧
      sends (readRegister dev reg n delay o).2 =
        [writeRestartPacket dev reg, readReqPacket n]) ∧
    ((o 0).1 = 0 ∨ (o 0).1 = -1 →
      sends (readRegister dev reg n delay o).2 =
        [writeRestartPacket dev reg]) := by
  constructor
  · intro h
    rw [readRegister_pos_delay_ack dev reg n delay o hd h]
    constructor
    · rcases Decidable.em ((o 1).1 = 0) with h1 | h1
      · rw [readFinish_false_noCount o _ h1]
        rfl
      · rcases hb : (o 1).2 with _ | ⟨k, rest⟩
        · simp [readFinish, h1, hb]
        · rw [readFinish_false_count o _ k rest h1 hb]
          split <;> rfl
    · rcases Decidable.em ((o 1).1 = 0) with h1 | h1
      · rw [readFinish_false_noCount o _ h1]
        simp [sends]
      · rcases hb : (o 1).2 with _ | ⟨k, rest⟩
        · simp [readFinish, h1, hb, sends]
        · rw [readFinish_false_count o _ k rest h1 hb]
          split <;> simp [sends]
  · intro h
    have hcond : ¬((o 0).1 ≠ 0 ∧ (o 0).1 ≠ -1) := by
      rcases h with h | h <;> simp [h]
    rw [readRegister_pos_delay_noAck dev reg n delay o hd hcond,
      readFinish_true]
    simp [sends]

/-- C7 amended witness: at `delay = 1` with an acknowledged transport, the
trace is write-restart send, ack receive, sleep, read-request send. -/
theorem C7_amended_delay_path_witness :
    (readRegister 0x14 0x10 3 1 ackOk3).2.take 4 =
      [Event.send (writeRestartPacket 0x14 0x10), Event.recv 1,
       Event.sleep 1, Event.send (readReqPacket 3)] ∧
    sends (readRegister 0x14 0x10 3 1 ackOk3).2 =
      [writeRestartPacket 0x14 0x10, readReqPacket 3] :=
  (C7_amended_delay_path 0x14 0x10 3 1 ackOk3 (by norm_num)).1 (by decide)

/-- C8: in every emitted packet segment, the value in the `PayloadLength`
position (index 4) equals the number of payload bytes that follow the
command byte (index 5) in that segment: `len(vByte)` for `writeRaw`,
`len(vByte)+1` for `writeRegister` (the register byte counts), and `1`
for the write-restart segment (the first 7 bytes of the combined
zero-delay send) of `readRegister`. -/
theorem C8_length_field_invariant (v : Bool) (dev reg N : Nat)
    (vByte : List Nat) (o : Oracle) :
    sends (writeRaw v dev vByte o).2 = [writePacket dev vByte] ∧
    (writePacket dev vByte)[4]? =
      some ((writePacket dev vByte).drop 6).length ∧
    sends (writeRegister v dev reg vByte o).2 = [writeRegPacket dev reg vByte] ∧
    (writeRegPacket dev reg vByte)[4]? =
      some ((writeRegPacket dev reg vByte).drop 6).length ∧
    sends (readRegister dev reg N 0 o).2 =
      [writeRestartPacket dev reg ++ readReqPacket N] ∧
    (writeRestartPacket dev reg ++ readReqPacket N).take 7 =
      writeRestartPacket dev reg ∧
    (writeRestartPacket dev reg)[4]? =
      some ((writeRestartPacket dev reg).drop 6).length := by
  refine ⟨?_, ?_, ?_, ?_, ?_, rfl, rfl⟩
  · simp [writeRaw, sends]
  · simp [writePacket]
  · simp [writeRegister, sends]
  · simp [writeRegPacket]
  · rw [readRegister_zero_delay dev reg N 0 o le_rfl, readFinish_sends]
    simp [sends]

/-- C9: `writeRaw` called with the verbose flag set, when the status-byte
receive succeeds (a byte arrived), raises `NameError` before returning:
its log line builds the tuple `(dev, reg, self.ERROR[res])`, and the name
`reg` is bound nowhere in `writeRaw`. -/
theorem C9_writeRaw_nameError (dev : Nat) (vByte : List Nat) (o : Oracle)
    (b : Nat) (rest : List Nat)
    (hb : (o 0).2 = b :: rest) (hs : (o 0).1 ≠ 0) :
    (writeRaw true dev vByte o).1 = Except.error PyExc.nameError := by
  simp [writeRaw, hs, hb]

/-- C9 witness: a verbose `writeRaw` with an acknowledged transport raises
the `NameError`. -/
theorem C9_writeRaw_nameError_witness :
    (writeRaw true 0x14 [1, 2] ackByte).1 =
      Except.error PyExc.nameError :=
  C9_writeRaw_nameError 0x14 [1, 2] ackByte 78 [] rfl (by decide)

/-- C10: every failure path of `readRaw` and `readRegister` — the
acknowledgment receive failing, the count receive failing, or the payload
receive failing — returns the integer sentinel `-1` (a normal return, not
an exception, and not a partial byte list). -/
theorem C10_failure_sentinel (dev reg N : Nat) (delay : ℚ) (o : Oracle) :
    ((o 0).1 = 0 → (readRaw dev N o).1 = Except.ok (PyVal.vint (-1))) ∧
    (∀ k rest, (o 0).1 ≠ 0 → (o 0).2 = k :: rest → (o 1).1 = 0 →
      (readRaw dev N o).1 = Except.ok (PyVal.vint (-1))) ∧
    ((o 0).1 = 0 ∨ (o 0).1 = -1 →
      (readRegister dev reg N delay o).1 = Except.ok (PyVal.vint (-1))) ∧
    ((o 0).1 ≠ 0 ∧ (o 0).1 ≠ -1 → (o 1).1 = 0 →
      (readRegister dev reg N delay o).1 = Except.ok (PyVal.vint (-1))) ∧
    (∀ k rest, (o 0).1 ≠ 0 ∧ (o 0).1 ≠ -1 → (o 1).1 ≠ 0 →
      (o 1).2 = k :: rest → (o 2).1 = 0 →
      (readRegister dev reg N delay o).1 = Except.ok (PyVal.vint (-1))) := by
  refine ⟨?_, ?_, ?_, ?_, ?_⟩
  · intro h0
    simp [readRaw, h0]
  · intro k rest h0 hb h1
    simp [readRaw, h0, hb, h1]
  · intro h
    have hcond : ¬((o 0).1 ≠ 0 ∧ (o 0).1 ≠ -1) := by
      rcases h with h | h <;> simp [h]
    exact readRegister_val_noAck dev reg N delay o hcond
  · intro h h1
    rw [readRegister_val_ack dev reg N delay o h,
      readFinish_false_noCount o [] h1]
  · intro k rest h h1 hb h2
    rw [readRegister_val_ack dev reg N delay o h,
      readFinish_false_count o [] k rest h1 hb]
    simp [h2]

/-- C10 witness: with a transport that delivers nothing, both `readRaw`
and `readRegister` return `-1`. -/
theorem C10_failure_sentinel_witness :
    (readRaw 0x14 3 noBytes).1 = Except.ok (PyVal.vint (-1)) ∧
    (readRegister 0x14 0x10 3 0 noBytes).1 = Except.ok (PyVal.vint (-1)) :=
  And.intro
    ((C10_failure_sentinel 0x14 0x10 3 0 noBytes).1 rfl)
    ((C10_failure_sentinel 0x14 0x10 3 0 noBytes).2.2.1 (Or.inl rfl))

end ArduBridgeI2C
